import Mathlib

/-!
Shallow embedding of the DigitalRainClock firmware (RTC/settings variant of
`src/firmware/DigitalRainClock/DigitalRainClock.ino`): the rain column
simulator, trail renderer, overlay-compositing logic, touch remap, settings
commit and the clock-text formatter, together with theorems checking the
specification's claims about them.

Machine-integer conventions: C `int` is modelled as `Int` (no overflow occurs
in the modelled ranges), `uint32_t` values (`millis()` timestamps) as `Nat`
reduced modulo `2 ^ 32`, and the `uint16_t` interval as a `Nat` reduced modulo
`2 ^ 16` where the source casts.
-/

/-- `SCREEN_W` from the source: drawing surface width in pixels. -/
def SCREEN_W : Int := 320

/-- `SCREEN_H` from the source: drawing surface height in pixels. -/
def SCREEN_H : Int := 240

/-- `TEXT_SCALE` from the source. -/
def TEXT_SCALE : Int := 1

/-- `FONT_PIXEL_W` from the source. -/
def FONT_PIXEL_W : Int := 6

/-- `FONT_PIXEL_H` from the source. -/
def FONT_PIXEL_H : Int := 8

/-- `CHAR_W = FONT_PIXEL_W * TEXT_SCALE`. -/
def CHAR_W : Int := FONT_PIXEL_W * TEXT_SCALE

/-- `CHAR_H = FONT_PIXEL_H * TEXT_SCALE`. -/
def CHAR_H : Int := FONT_PIXEL_H * TEXT_SCALE

/-- `NUM_COLS = SCREEN_W / CHAR_W`. -/
def NUM_COLS : Int := SCREEN_W / CHAR_W

/-- `NUM_ROWS = SCREEN_H / CHAR_H`. -/
def NUM_ROWS : Int := SCREEN_H / CHAR_H

/-- `MIN_TAIL_LEN` from the source. -/
def MIN_TAIL_LEN : Nat := 14

/-- `MAX_TAIL_LEN` from the source. -/
def MAX_TAIL_LEN : Nat := 20

/-- `MIN_INTERVAL` from the source (ms per row step, fast end). -/
def MIN_INTERVAL : Nat := 60

/-- `MAX_INTERVAL` from the source (ms per row step, slow end). -/
def MAX_INTERVAL : Nat := 160

/-- `TIME_TEXT_LENGTH` from the source. -/
def TIME_TEXT_LENGTH : Int := 5

/-- `TIME_OVERLAY_DURATION_MS` from the source. -/
def TIME_OVERLAY_DURATION_MS : Nat := 3600

/-- `TIME_TEXT_SIZE` from the source. -/
def TIME_TEXT_SIZE : Int := 6

/-- Modulus of `uint32_t` arithmetic (`millis()` timestamps). -/
def UINT32_MOD : Nat := 4294967296

/-- `uint32_t` subtraction `a - b` as performed by the C code on wrapping
unsigned integers; `a` and `b` are the `Nat` values of the two operands. -/
def sub32 (a b : Nat) : Nat := (a % UINT32_MOD + UINT32_MOD - b % UINT32_MOD) % UINT32_MOD

/-- The cached overlay geometry: globals `overlayAreaX/Y/W/H` and
`startOverlayCol`/`endOverlayCol` of the source. -/
structure OverlayArea where
  x : Int
  y : Int
  w : Int
  h : Int
  startCol : Int
  endCol : Int
deriving DecidableEq

/-- `calcTimeOverlayArea()` from the source: computes the cached overlay
rectangle and the inclusive column range it spans, from the static font
metrics and screen dimensions. -/
def calcTimeOverlayArea : OverlayArea :=
  let charPixelW := FONT_PIXEL_W * TIME_TEXT_SIZE
  let charPixelH := FONT_PIXEL_H * TIME_TEXT_SIZE
  let textPixelW := TIME_TEXT_LENGTH * charPixelW
  let vPad := 1 * TIME_TEXT_SIZE + 2
  let tx0 := (SCREEN_W - textPixelW) / 2
  let tx := if tx0 < 0 then 0 else tx0
  let ty0 := (SCREEN_H - charPixelH) / 2
  let ty := if ty0 < 0 then 0 else ty0
  { x := tx
    y := ty - vPad
    w := textPixelW - 1
    h := charPixelH + vPad
    startCol := tx / CHAR_W
    endCol := (tx + (textPixelW - 1)) / CHAR_W }

/-- `isOverlayArea(col, y, h)` from the source: does a rain cell in column
`col` with pixel y-range `[y, y+h)` collide with the active overlay box?
`active` is the global `overlay.active` read by the function. -/
def isOverlayArea (active : Bool) (col y h : Int) : Bool :=
  if !active then false
  else if col < calcTimeOverlayArea.startCol || calcTimeOverlayArea.endCol < col then false
  else decide (y < calcTimeOverlayArea.y + calcTimeOverlayArea.h) &&
       decide (calcTimeOverlayArea.y < y + h)

/-- A primitive operation emitted to the drawing surface. -/
inductive DrawOp where
  | write (x y : Int) (ch : Char) (color : Nat)
  | fillRect (x y w h : Int) (color : Nat)
deriving DecidableEq

/-- `matrixBgColor` (ILI9341_BLACK). -/
def matrixBgColor : Nat := 0

/-- `drawRainChar(col, row, ch, color)` from the source: returns the drawing
operation reaching the surface, or `none` when the call is a no-op (row out of
bounds, or the cell collides with the active overlay). -/
def drawRainChar (active : Bool) (col row : Int) (ch : Char) (color : Nat) : Option DrawOp :=
  if row < 0 || NUM_ROWS ≤ row then none
  else
    let x := col * CHAR_W
    let y := row * CHAR_H
    if isOverlayArea active col y CHAR_H then none
    else some (DrawOp.write x y ch color)

/-- `clearRainChar(col, row)` from the source: the erase analogue of
`drawRainChar`. -/
def clearRainChar (active : Bool) (col row : Int) : Option DrawOp :=
  if row < 0 || NUM_ROWS ≤ row then none
  else
    let x := col * CHAR_W
    let y := row * CHAR_H
    if isOverlayArea active col y CHAR_H then none
    else some (DrawOp.fillRect x y CHAR_W CHAR_H matrixBgColor)

/-- Two axis-aligned rectangles (half-open, `[x, x+w) × [y, y+h)`) intersect. -/
def rectsIntersect (x1 y1 w1 h1 x2 y2 w2 h2 : Int) : Prop :=
  x1 < x2 + w2 ∧ x2 < x1 + w1 ∧ y1 < y2 + h2 ∧ y2 < y1 + h1

instance (x1 y1 w1 h1 x2 y2 w2 h2 : Int) : Decidable (rectsIntersect x1 y1 w1 h1 x2 y2 w2 h2) :=
  inferInstanceAs (Decidable (_ ∧ _ ∧ _ ∧ _))

/-- `struct ColumnState` from the source. `headRow` is a C `int` (may be
negative before the stream enters the screen); `intervalMs` is a `uint16_t`,
`lastUpdateMs` a `uint32_t`, `tailLength` a `uint8_t` (always assigned values
in `[MIN_TAIL_LEN, MAX_TAIL_LEN]`). -/
structure ColumnState where
  headRow : Int
  intervalMs : Nat
  lastUpdateMs : Nat
  tailLength : Nat
deriving DecidableEq

/-- The random draws consumed by one `resetColumn` + respawn/startup head
placement. Contracts of the Arduino `random` calls in the source:
`tailRand = random(MIN_TAIL_LEN, MAX_TAIL_LEN + 1)` lies in `[14, 20]`,
`jitter = random(-15, 16)` lies in `[-15, 15]`, and
`headRand = random(-NUM_ROWS, 0)` lies in `[-NUM_ROWS, -1]`. -/
structure RainRand where
  tailRand : Nat
  jitter : Int
  headRand : Int
deriving DecidableEq

/-- The `intervalMs` computation of `resetColumn`: linear interpolation of
the tail length onto `[MIN_INTERVAL, MAX_INTERVAL]` (through a `uint16_t`
cast), plus jitter, floor-clamped to 20 and stored as `uint16_t`. -/
def intervalOf (tailLength : Nat) (jitter : Int) : Nat :=
  let tailSpan : Int :=
    if ((MAX_TAIL_LEN : Int) - MIN_TAIL_LEN) < 1 then 1 else (MAX_TAIL_LEN : Int) - MIN_TAIL_LEN
  let baseInterval : Nat :=
    (MIN_INTERVAL +
      ((((tailLength : Int) - MIN_TAIL_LEN) * ((MAX_INTERVAL : Int) - MIN_INTERVAL) / tailSpan)
        % 65536).toNat) % 65536
  let intervalWithJitter : Int := (baseInterval : Int) + jitter
  let clamped : Int := if intervalWithJitter < 20 then 20 else intervalWithJitter
  (clamped % 65536).toNat

/-- `resetColumn(col)` from the source: draws a fresh tail length and
interval for the column and stamps `lastUpdateMs` with the current time;
`headRow` is left untouched (callers overwrite it). -/
def resetColumn (c : ColumnState) (tailRand : Nat) (jitter : Int) (now : Nat) : ColumnState :=
  { c with
    tailLength := tailRand
    intervalMs := intervalOf tailRand jitter
    lastUpdateMs := now % UINT32_MOD }

/-- The per-column body of `initColumns()` from the source: `resetColumn`
followed by `headRow = random(-NUM_ROWS, 0)` — the startup procedure for
every column. -/
def initColumnState (r : RainRand) (now : Nat) : ColumnState :=
  { resetColumn { headRow := 0, intervalMs := 0, lastUpdateMs := 0, tailLength := 0 }
      r.tailRand r.jitter now with
    headRow := r.headRand }

/-- The `brightDist` computation of `updateMatrixRain`: `tailLen / 5`,
raised to at least 1, then lowered to at most `tailLen - 1`. -/
def brightDistOf (tailLen : Int) : Int :=
  let b0 := tailLen / 5
  let b1 := if b0 < 1 then 1 else b0
  if tailLen ≤ b1 then tailLen - 1 else b1

/-- The `darkStartDist` computation of `updateMatrixRain`: `tailLen * 4 / 5`,
raised to at least `brightDist + 2`, then lowered to at most `tailLen - 1`. -/
def darkStartDistOf (tailLen : Int) : Int :=
  let d0 := tailLen * 4 / 5
  let d1 := if d0 ≤ brightDistOf tailLen + 1 then brightDistOf tailLen + 2 else d0
  if tailLen ≤ d1 then tailLen - 1 else d1

/-- The dim-trail repaint of `updateMatrixRain`: the row
`head - (brightDist + 1)` is repainted dim when it is on screen and its
distance behind the head is in `[0, tailLen) ∩ [0, darkStartDist)`; returns
the repainted row, or `none` when the repaint does not fire. -/
def dimFires (head tailLen : Int) : Option Int :=
  let dimRow := head - (brightDistOf tailLen + 1)
  if 0 ≤ dimRow ∧ dimRow < NUM_ROWS then
    let dist := head - dimRow
    if dist < tailLen ∧ 0 ≤ dist ∧ dist < darkStartDistOf tailLen then some dimRow else none
  else none

/-- The dark-trail repaint of `updateMatrixRain`: the row
`head - darkStartDist` is repainted dark when it is on screen and its
distance behind the head is in `[darkStartDist, tailLen)`; returns the
repainted row, or `none` when the repaint does not fire. -/
def darkFires (head tailLen : Int) : Option Int :=
  let darkRow := head - darkStartDistOf tailLen
  if 0 ≤ darkRow ∧ darkRow < NUM_ROWS then
    let dist := head - darkRow
    if dist < tailLen ∧ darkStartDistOf tailLen ≤ dist then some darkRow else none
  else none

/-- Result of one column's slice of `updateMatrixRain`: the new state, a flag
recording whether the column advanced this tick, and the cell-level
draw/erase targets computed by the code (rows handed to `clearRainChar` /
`drawRainChar`; `none` where the corresponding call is not made or its range
guard fails). -/
structure ColumnTickResult where
  state : ColumnState
  advanced : Bool
  eraseRow : Option Int
  headDrawRow : Option Int
  brightRow : Option Int
  dimRow : Option Int
  darkRow : Option Int
deriving DecidableEq

/-- The state-update slice of the per-column body of `updateMatrixRain()`:
the due check on the wrapping `uint32_t` clock, the drift-free
`lastUpdateMs` advance (`+= intervalMs`) with catch-up snap to `now`, the
head increment, and the off-screen respawn (`resetColumn` followed by
`headRow = random(-NUM_ROWS, 0)`, which also overwrites `lastUpdateMs` with
`now`). -/
def advanceColumnState (c : ColumnState) (now : Nat) (r : RainRand) : ColumnState :=
  if sub32 now c.lastUpdateMs < c.intervalMs then c
  else
    let last1 := (c.lastUpdateMs + c.intervalMs) % UINT32_MOD
    let last2 := if c.intervalMs ≤ sub32 now last1 then now % UINT32_MOD else last1
    let head1 := c.headRow + 1
    if NUM_ROWS + (c.tailLength : Int) ≤ head1 then
      { resetColumn c r.tailRand r.jitter now with headRow := r.headRand }
    else
      { c with headRow := head1, lastUpdateMs := last2 }

/-- The per-column body of `updateMatrixRain()` from the source: the state
advance together with the tail erase / head draw / bright / dim / dark
repaint targets the renderer computes from it. -/
def updateMatrixRainColumn (c : ColumnState) (now : Nat) (r : RainRand) : ColumnTickResult :=
  if sub32 now c.lastUpdateMs < c.intervalMs then
    { state := c, advanced := false, eraseRow := none, headDrawRow := none,
      brightRow := none, dimRow := none, darkRow := none }
  else
    let prevHead := c.headRow
    let st := advanceColumnState c now r
    let tailLen : Int := st.tailLength
    { state := st
      advanced := true
      eraseRow := some (st.headRow - tailLen)
      headDrawRow := if 0 ≤ st.headRow ∧ st.headRow < NUM_ROWS then some st.headRow else none
      brightRow := if 0 ≤ prevHead ∧ prevHead < NUM_ROWS then some prevHead else none
      dimRow := dimFires st.headRow tailLen
      darkRow := darkFires st.headRow tailLen }

/-- The invariant of spec §3/§8 on a column's randomized parameters. -/
def ColumnInv (c : ColumnState) : Prop :=
  MIN_TAIL_LEN ≤ c.tailLength ∧ c.tailLength ≤ MAX_TAIL_LEN ∧
    20 ≤ c.intervalMs ∧ c.intervalMs ≤ MAX_INTERVAL + 15

/-- `struct TimeOverlay` from the source (`active`, `startMs`, `endMs`,
`needsDraw`); the timestamps are `uint32_t` values. -/
structure TimeOverlay where
  active : Bool
  startMs : Nat
  endMs : Nat
  needsDraw : Bool
deriving DecidableEq

/-- `startTimeOverlay(now)` from the source, state part: activates (or
refreshes) the overlay with deadline `now + TIME_OVERLAY_DURATION_MS` and
marks it for redraw. (When previously inactive the code also fills the
overlay rectangle with the background color.) -/
def startTimeOverlay (_ov : TimeOverlay) (now : Nat) : TimeOverlay :=
  { active := true
    startMs := now % UINT32_MOD
    endMs := (now + TIME_OVERLAY_DURATION_MS) % UINT32_MOD
    needsDraw := true }

/-- `updateTimeOverlay()` from the source, state part: no-op when inactive;
deactivates and clears `needsDraw` when `now > endMs`; otherwise renders the
text exactly when `needsDraw` is set, clearing the flag. -/
def updateTimeOverlay (ov : TimeOverlay) (now : Nat) : TimeOverlay :=
  if !ov.active then ov
  else if ov.endMs < now then { ov with active := false, needsDraw := false }
  else if !ov.needsDraw then ov
  else { ov with needsDraw := false }

/-- Models `snprintf` with format `%02d` for the nonnegative, at most
two-digit values the source passes it (hours `1..23`, minutes `0..59`). -/
def fmt2 (n : Int) : String :=
  if n < 10 then "0" ++ toString n else toString n

/-- `updateTimeTextFromClock()` from the source: the text written into the
global `timeText` buffer, as a function of the hour (24h form) and minute
read from the time source; hour 0 is displayed as 12. -/
def updateTimeTextFromClock (hour minute : Int) : String :=
  let h := if hour = 0 then 12 else hour
  fmt2 h ++ ":" ++ fmt2 minute

/-- The globals of the main sketch relevant to the minute-tick trigger:
`settingsActive`, `lastDisplayedMinute`, the `timeText` buffer, and the
overlay state. -/
structure SystemState where
  settingsActive : Bool
  lastDisplayedMinute : Int
  timeText : String
  overlay : TimeOverlay
deriving DecidableEq

/-- `checkMinuteTick()` from the source: compares the time source's current
minute with `lastDisplayedMinute` and, on change, refreshes the clock text
and (re)starts the overlay. The function itself never consults
`settingsActive`. -/
def checkMinuteTick (st : SystemState) (rtcHour rtcMinute : Int) (now : Nat) : SystemState :=
  if rtcMinute = st.lastDisplayedMinute then st
  else
    { st with
      lastDisplayedMinute := rtcMinute
      timeText := updateTimeTextFromClock rtcHour rtcMinute
      overlay := startTimeOverlay st.overlay now }

/-- Result of one pass of `loop()`: the new global state plus flags recording
whether `updateMatrixRain()` and `updateTimeOverlay()` were reached. -/
structure LoopTickResult where
  state : SystemState
  ranMatrixRain : Bool
  ranOverlayUpdate : Bool
deriving DecidableEq

/-- One pass of `loop()` from the source on a tick with no touch input
(`handleTouch` returns immediately): `checkMinuteTick` runs unconditionally,
then the pass returns early — skipping `updateMatrixRain` and
`updateTimeOverlay` — exactly when `settingsActive` is set. -/
def loopTick (st : SystemState) (rtcHour rtcMinute : Int) (now : Nat) : LoopTickResult :=
  let st1 := checkMinuteTick st rtcHour rtcMinute now
  if st1.settingsActive then
    { state := st1, ranMatrixRain := false, ranOverlayUpdate := false }
  else
    { state := { st1 with overlay := updateTimeOverlay st1.overlay now }
      ranMatrixRain := true
      ranOverlayUpdate := true }

/-- Arduino's integer `map(x, in_min, in_max, out_min, out_max)`. The only
divisions the source performs with it are exact, so C truncating division and
Euclidean division agree on every call site modelled here. -/
def arduinoMap (x inMin inMax outMin outMax : Int) : Int :=
  (x - inMin) * (outMax - outMin) / (inMax - inMin) + outMin

/-- The coordinate remap of `handleTouch()` from the source:
`touchX = map(p.x, 0, 240, 240, 0)` and `touchY = map(p.y, 0, 320, 320, 0)`. -/
def touchRemap (rawX rawY : Int) : Int × Int :=
  (arduinoMap rawX 0 240 240 0, arduinoMap rawY 0 320 320 0)

/-- The time source's calendar fields. Models the ESP32Time collaborator:
`month` is stored in calendar form `1..12`; the library's `getMonth()`
returns it 0-based, and `setTime(sec, min, hour, day, month, year)` takes the
month 1-based. -/
structure RtcState where
  second : Int
  minute : Int
  hour : Int
  day : Int
  month : Int
  year : Int
deriving DecidableEq

/-- ESP32Time `getMonth()`: 0-based month. -/
def RtcState.getMonth (r : RtcState) : Int := r.month - 1

/-- ESP32Time `getDay()`. -/
def RtcState.getDay (r : RtcState) : Int := r.day

/-- ESP32Time `getYear()`. -/
def RtcState.getYear (r : RtcState) : Int := r.year

/-- ESP32Time `setTime(sec, min, hour, day, month, year)` with 1-based month. -/
def rtcSetTime (sc mn hr dy mt yr : Int) : RtcState :=
  { second := sc, minute := mn, hour := hr, day := dy, month := mt, year := yr }

/-- The time-source write of `exitSettingsMenu()` from the source: re-reads
day, month (0-based, converted back to 1-based) and year, and commits the
edited hour/minute with seconds reset to 0. -/
def exitSettingsMenuRtc (settingsHour settingsMinute : Int) (rtc : RtcState) : RtcState :=
  rtcSetTime 0 settingsMinute settingsHour rtc.getDay (rtc.getMonth + 1) rtc.getYear

/-- Concrete Settings-mode system state (last displayed minute 0) used to
exercise the minute-change trigger. -/
def sysC3 : SystemState :=
  { settingsActive := true
    lastDisplayedMinute := 0
    timeText := "12:00"
    overlay := { active := false, startMs := 0, endMs := 0, needsDraw := false } }

/-- Concrete Settings-mode system state (last displayed minute 5) used to
exercise the minute-change trigger. -/
def sysW : SystemState :=
  { settingsActive := true
    lastDisplayedMinute := 5
    timeText := "12:05"
    overlay := { active := false, startMs := 0, endMs := 0, needsDraw := false } }

/-- Concrete column used to exercise the catch-up snap boundary:
`headRow = 0`, `intervalMs = 100`, `lastUpdateMs = 0`, `tailLength = 14`. -/
def c4c : ColumnState := { headRow := 0, intervalMs := 100, lastUpdateMs := 0, tailLength := 14 }

/-- Concrete column used to exercise a due advance with catch-up snap. -/
def c4w : ColumnState := { headRow := 3, intervalMs := 100, lastUpdateMs := 0, tailLength := 14 }

/-- Concrete column whose stream has fully left the screen, used to exercise
the respawn path. -/
def c6w : ColumnState := { headRow := 45, intervalMs := 100, lastUpdateMs := 0, tailLength := 14 }

/-- Concrete inactive overlay used to exercise activation and expiry. -/
def ovW : TimeOverlay := { active := false, startMs := 0, endMs := 0, needsDraw := false }

/-- The cached overlay geometry evaluates to the concrete values of this
variant: box `(70, 88, 179, 56)` spanning columns `11..41`. -/
theorem calcTimeOverlayArea_eval :
    calcTimeOverlayArea = { x := 70, y := 88, w := 179, h := 56, startCol := 11, endCol := 41 } := by
  decide

/-- `resetColumn`'s interval always lands in `[20, MAX_INTERVAL + 15]` when
the random draws respect their contracts. -/
theorem intervalOf_bounds (t : Nat) (j : Int)
    (ht1 : MIN_TAIL_LEN ≤ t) (ht2 : t ≤ MAX_TAIL_LEN) (hj1 : -15 ≤ j) (hj2 : j ≤ 15) :
    20 ≤ intervalOf t j ∧ intervalOf t j ≤ MAX_INTERVAL + 15 := by
  simp only [MIN_TAIL_LEN, MAX_TAIL_LEN, MAX_INTERVAL] at *
  interval_cases t <;>
    (simp only [intervalOf, MIN_TAIL_LEN, MAX_TAIL_LEN, MIN_INTERVAL, MAX_INTERVAL]
     norm_num
     split_ifs <;> omega)

/-- The state in the result of `updateMatrixRainColumn` is exactly
`advanceColumnState`. -/
theorem updateMatrixRainColumn_state (c : ColumnState) (now : Nat) (r : RainRand) :
    (updateMatrixRainColumn c now r).state = advanceColumnState c now r := by
  simp only [updateMatrixRainColumn, advanceColumnState]
  split <;> rfl

/-- C1: while the overlay is active, no rain draw or erase reaches the
drawing surface for any cell whose screen rectangle
`(col*CHAR_W, row*CHAR_H, CHAR_W, CHAR_H)` intersects the cached overlay
rectangle: `drawRainChar` and `clearRainChar` emit no drawing operation
there, leaving the overlay content undisturbed. -/
theorem overlay_occludes_rain (col row : Int) (ch : Char) (color : Nat)
    (hint : rectsIntersect (col * CHAR_W) (row * CHAR_H) CHAR_W CHAR_H
      calcTimeOverlayArea.x calcTimeOverlayArea.y calcTimeOverlayArea.w calcTimeOverlayArea.h) :
    drawRainChar true col row ch color = none ∧ clearRainChar true col row = none := by
  have hCW : CHAR_W = 6 := by decide
  have hCH : CHAR_H = 8 := by decide
  have hNR : NUM_ROWS = 30 := by decide
  have hax : calcTimeOverlayArea.x = 70 := by decide
  have hay : calcTimeOverlayArea.y = 88 := by decide
  have haw : calcTimeOverlayArea.w = 179 := by decide
  have hah : calcTimeOverlayArea.h = 56 := by decide
  have hsc : calcTimeOverlayArea.startCol = 11 := by decide
  have hec : calcTimeOverlayArea.endCol = 41 := by decide
  obtain ⟨h1, h2, h3, h4⟩ := hint
  rw [hax, haw, hCW] at h1
  rw [hax, hCW] at h2
  rw [hay, hah, hCH] at h3
  rw [hay, hCH] at h4
  have hia : isOverlayArea true col (row * 8) 8 = true := by
    simp only [isOverlayArea, hsc, hec, hay, hah, Bool.not_true, Bool.false_eq_true, if_false]
    rw [if_neg]
    · simp only [Bool.and_eq_true, decide_eq_true_eq]
      omega
    · simp only [Bool.or_eq_true, decide_eq_true_eq, not_or]
      omega
  constructor
  · simp only [drawRainChar, hNR, hCW, hCH]
    split
    · rfl
    · simp [hia]
  · simp only [clearRainChar, hNR, hCW, hCH]
    split
    · rfl
    · simp [hia]

/-- Witness for C1 at the concrete cell `(col, row) = (20, 12)`. -/
theorem overlay_occludes_rain_witness :
    rectsIntersect (20 * CHAR_W) (12 * CHAR_H) CHAR_W CHAR_H
        calcTimeOverlayArea.x calcTimeOverlayArea.y calcTimeOverlayArea.w calcTimeOverlayArea.h ∧
      drawRainChar true 20 12 'A' 0 = none ∧ clearRainChar true 20 12 = none :=
  ⟨by decide, overlay_occludes_rain 20 12 'A' 0 (by decide)⟩

/-- C4 counterexample: take a column with `intervalMs = 100`,
`lastUpdateMs = 0`, and tick it at `now = 200`. The advance is due, and the
drift-free update `lastUpdateMs += intervalMs` yields 100, which lags `now`
by exactly one interval — not *more* than one. The claim therefore predicts
no snap (`lastUpdateMs = 100`), but the code's `>=` catch-up test fires and
sets `lastUpdateMs = now = 200`. -/
theorem catchup_snap_counterexample :
    c4c.intervalMs ≤ sub32 200 c4c.lastUpdateMs ∧
      ¬(c4c.intervalMs < 200 - (c4c.lastUpdateMs + c4c.intervalMs)) ∧
      (updateMatrixRainColumn c4c 200 ⟨14, 0, -5⟩).state.lastUpdateMs ≠
        c4c.lastUpdateMs + c4c.intervalMs ∧
      (updateMatrixRainColumn c4c 200 ⟨14, 0, -5⟩).state.lastUpdateMs = 200 := by
  decide

/-- C4 as amended: for a due, non-respawning advance, `lastUpdateMs` becomes
exactly `lastUpdateMs + intervalMs`, except that it is snapped to `now`
precisely when that updated value lags `now` by *at least* one interval
(`now - (lastUpdateMs + intervalMs) ≥ intervalMs`, the code's `>=` test) —
not strictly more than one. (A respawning advance instead has `lastUpdateMs`
overwritten with `now` by `resetColumn`.) The head row advances by exactly 1. -/
theorem catchup_snap_amended (c : ColumnState) (now : Nat) (r : RainRand)
    (hlt : c.lastUpdateMs ≤ now) (hnow : now < UINT32_MOD)
    (hdue : c.intervalMs ≤ now - c.lastUpdateMs)
    (hnr : c.headRow + 1 < NUM_ROWS + (c.tailLength : Int)) :
    (updateMatrixRainColumn c now r).state.lastUpdateMs =
        (if c.intervalMs ≤ now - (c.lastUpdateMs + c.intervalMs) then now
         else c.lastUpdateMs + c.intervalMs) ∧
      (updateMatrixRainColumn c now r).state.headRow = c.headRow + 1 := by
  have hd : ¬(sub32 now c.lastUpdateMs < c.intervalMs) := by
    simp only [sub32, UINT32_MOD] at *
    omega
  have hr2 : ¬(NUM_ROWS + (c.tailLength : Int) ≤ c.headRow + 1) := not_le.mpr hnr
  rw [updateMatrixRainColumn_state]
  simp only [advanceColumnState, hd, hr2, if_false]
  have e1 : (c.lastUpdateMs + c.intervalMs) % UINT32_MOD = c.lastUpdateMs + c.intervalMs := by
    simp only [UINT32_MOD] at *
    omega
  have e2 : sub32 now (c.lastUpdateMs + c.intervalMs) = now - (c.lastUpdateMs + c.intervalMs) := by
    simp only [sub32, UINT32_MOD] at *
    omega
  have e3 : now % UINT32_MOD = now := by
    simp only [UINT32_MOD] at *
    omega
  rw [e1, e2, e3]
  refine ⟨?_, ?_⟩ <;> first | rfl | trivial

/-- Witness for the amended C4 at a concrete due advance with catch-up. -/
theorem catchup_snap_amended_witness :
    c4w.lastUpdateMs ≤ 250 ∧ (250 : Nat) < UINT32_MOD ∧
      c4w.intervalMs ≤ 250 - c4w.lastUpdateMs ∧
      c4w.headRow + 1 < NUM_ROWS + (c4w.tailLength : Int) ∧
      ((updateMatrixRainColumn c4w 250 ⟨14, 0, -5⟩).state.lastUpdateMs =
          (if c4w.intervalMs ≤ 250 - (c4w.lastUpdateMs + c4w.intervalMs) then 250
           else c4w.lastUpdateMs + c4w.intervalMs) ∧
        (updateMatrixRainColumn c4w 250 ⟨14, 0, -5⟩).state.headRow = c4w.headRow + 1) :=
  ⟨by decide, by decide, by decide, by decide,
    catchup_snap_amended c4w 250 ⟨14, 0, -5⟩ (by decide) (by decide) (by decide) (by decide)⟩

/-- C2: after initialization, after every `resetColumn`, and after every
advance of `updateMatrixRainColumn`, a column's `tailLength` lies in
`[MIN_TAIL_LEN, MAX_TAIL_LEN]` and its `intervalMs` lies in
`[20, MAX_INTERVAL + 15]` (the 20 ms lower bound coming from the floor
clamp in `resetColumn`), given that the random draws respect their
contracts. -/
theorem tail_and_interval_invariant (c : ColumnState) (now : Nat) (r : RainRand)
    (ht1 : MIN_TAIL_LEN ≤ r.tailRand) (ht2 : r.tailRand ≤ MAX_TAIL_LEN)
    (hj1 : -15 ≤ r.jitter) (hj2 : r.jitter ≤ 15) :
    ColumnInv (initColumnState r now) ∧
      ColumnInv (resetColumn c r.tailRand r.jitter now) ∧
      (ColumnInv c → ColumnInv (updateMatrixRainColumn c now r).state) := by
  have hb := intervalOf_bounds r.tailRand r.jitter ht1 ht2 hj1 hj2
  refine ⟨⟨ht1, ht2, hb.1, hb.2⟩, ⟨ht1, ht2, hb.1, hb.2⟩, ?_⟩
  intro hc
  rw [updateMatrixRainColumn_state]
  simp only [advanceColumnState]
  split_ifs with h1 h2 h3
  · exact hc
  · exact ⟨ht1, ht2, hb.1, hb.2⟩
  · exact ⟨hc.1, hc.2.1, hc.2.2.1, hc.2.2.2⟩
  · exact ⟨hc.1, hc.2.1, hc.2.2.1, hc.2.2.2⟩

/-- Witness for C2 at a concrete state and random draws. -/
theorem tail_and_interval_invariant_witness :
    MIN_TAIL_LEN ≤ 17 ∧ (17 : Nat) ≤ MAX_TAIL_LEN ∧ (-15 : Int) ≤ 3 ∧ (3 : Int) ≤ 15 ∧
      (ColumnInv (initColumnState ⟨17, 3, -7⟩ 1000) ∧
        ColumnInv (resetColumn ⟨5, 100, 0, 16⟩ 17 3 1000) ∧
        (ColumnInv ⟨5, 100, 0, 16⟩ →
          ColumnInv (updateMatrixRainColumn ⟨5, 100, 0, 16⟩ 1000 ⟨17, 3, -7⟩).state)) :=
  ⟨by decide, by decide, by decide, by decide,
    tail_and_interval_invariant ⟨5, 100, 0, 16⟩ 1000 ⟨17, 3, -7⟩
      (by decide) (by decide) (by decide) (by decide)⟩

/-- C3 counterexample: in Settings mode (`settingsActive = true`, last
displayed minute 0), a tick on which the time source reports minute 1 still
refreshes the clock text and re-activates the overlay — `checkMinuteTick`
runs before the Settings early-return in `loop()` and never consults
`settingsActive` — contradicting the claim that the trigger is suppressed
for the whole duration of Settings mode. -/
theorem settings_minute_tick_counterexample :
    sysC3.settingsActive = true ∧
      (loopTick sysC3 1 1 5000).state.overlay.active = true ∧
      (loopTick sysC3 1 1 5000).state.timeText ≠ sysC3.timeText := by
  decide

/-- C3 as amended: while in Settings mode a minute change still fires the
trigger — the clock text is refreshed, `lastDisplayedMinute` is updated and
the overlay state is re-activated — and what Settings mode suppresses is
only the remainder of the tick: `updateMatrixRain` and `updateTimeOverlay`
(the overlay repaint) are skipped. -/
theorem settings_minute_tick_amended (st : SystemState) (h m : Int) (now : Nat)
    (hs : st.settingsActive = true) (hm : m ≠ st.lastDisplayedMinute) :
    (loopTick st h m now).state.overlay.active = true ∧
      (loopTick st h m now).state.timeText = updateTimeTextFromClock h m ∧
      (loopTick st h m now).state.lastDisplayedMinute = m ∧
      (loopTick st h m now).ranMatrixRain = false ∧
      (loopTick st h m now).ranOverlayUpdate = false := by
  simp [loopTick, checkMinuteTick, hm, hs, startTimeOverlay]

/-- Witness for the amended C3 at a concrete Settings-mode state. -/
theorem settings_minute_tick_amended_witness :
    sysW.settingsActive = true ∧ (3 : Int) ≠ sysW.lastDisplayedMinute ∧
      ((loopTick sysW 2 3 700).state.overlay.active = true ∧
        (loopTick sysW 2 3 700).state.timeText = updateTimeTextFromClock 2 3 ∧
        (loopTick sysW 2 3 700).state.lastDisplayedMinute = 3 ∧
        (loopTick sysW 2 3 700).ranMatrixRain = false ∧
        (loopTick sysW 2 3 700).ranOverlayUpdate = false) :=
  ⟨by decide, by decide, settings_minute_tick_amended sysW 2 3 700 (by decide) (by decide)⟩

/-- C5: for every tail length in `[MIN_TAIL_LEN, MAX_TAIL_LEN]` the code's
sequentially clamped fade boundaries equal the spec's closed forms
`brightDist = max(1, min(L-1, L/5))` and
`darkStartDist = max(brightDist+2, min(L-1, L*4/5))`; for `L = 20` they are
4 and 16, the dim repaint targets the cell at distance 5 behind the head,
the dark repaint the cell at distance 16, and the erase always targets the
row `newHead - tailLength` (distance 20 for `L = 20`). -/
theorem fade_boundaries (L : Int) (hL1 : 14 ≤ L) (hL2 : L ≤ 20) :
    brightDistOf L = max 1 (min (L - 1) (L / 5)) ∧
      darkStartDistOf L = max (brightDistOf L + 2) (min (L - 1) (L * 4 / 5)) ∧
      brightDistOf 20 = 4 ∧ darkStartDistOf 20 = 16 ∧
      (∀ head r, dimFires head 20 = some r → head - r = 5) ∧
      (∀ head r, darkFires head 20 = some r → head - r = 16) ∧
      (∀ (c : ColumnState) (now : Nat) (rnd : RainRand),
        (updateMatrixRainColumn c now rnd).advanced = true →
          (updateMatrixRainColumn c now rnd).eraseRow =
            some ((updateMatrixRainColumn c now rnd).state.headRow -
              ((updateMatrixRainColumn c now rnd).state.tailLength : Int))) := by
  refine ⟨?_, ?_, by decide, by decide, ?_, ?_, ?_⟩
  · interval_cases L <;> decide
  · interval_cases L <;> decide
  · intro head r hr
    rw [show (20 : Int) = 20 from rfl] at hr
    simp only [dimFires] at hr
    rw [show brightDistOf 20 = 4 from by decide,
      show darkStartDistOf 20 = 16 from by decide] at hr
    split_ifs at hr
    simp only [Option.some.injEq] at hr
    omega
  · intro head r hr
    simp only [darkFires] at hr
    rw [show darkStartDistOf 20 = 16 from by decide] at hr
    split_ifs at hr
    simp only [Option.some.injEq] at hr
    omega
  · intro c now rnd hadv
    by_cases hdue : sub32 now c.lastUpdateMs < c.intervalMs
    · simp [updateMatrixRainColumn, hdue] at hadv
    · simp [updateMatrixRainColumn, hdue]

/-- Witness for C5 at `L = 20` and a concrete dim-repaint firing. -/
theorem fade_boundaries_witness :
    (14 : Int) ≤ 20 ∧ (20 : Int) ≤ 20 ∧
      brightDistOf 20 = 4 ∧ darkStartDistOf 20 = 16 ∧
      dimFires 10 20 = some 5 ∧ (10 : Int) - 5 = 5 :=
  ⟨by decide, by decide, (fade_boundaries 20 (by decide) (by decide)).2.2.1,
    (fade_boundaries 20 (by decide) (by decide)).2.2.2.1, by decide,
    (fade_boundaries 20 (by decide) (by decide)).2.2.2.2.1 10 5 (by decide)⟩

/-- C6: when the post-increment head row reaches `NUM_ROWS + tailLength`,
the same advance reinitializes the column with exactly the startup
procedure (`resetColumn` followed by `headRow = random(-NUM_ROWS, 0)`): the
resulting state equals `initColumnState` on the fresh random draws, with
`headRow` in `[-NUM_ROWS, 0)`, `tailLength` in
`[MIN_TAIL_LEN, MAX_TAIL_LEN]`, and `intervalMs` clamped to at least 20 ms. -/
theorem respawn_reinitializes (c : ColumnState) (now : Nat) (r : RainRand)
    (hlt : c.lastUpdateMs ≤ now) (hnow : now < UINT32_MOD)
    (hdue : c.intervalMs ≤ now - c.lastUpdateMs)
    (hresp : NUM_ROWS + (c.tailLength : Int) ≤ c.headRow + 1)
    (ht1 : MIN_TAIL_LEN ≤ r.tailRand) (ht2 : r.tailRand ≤ MAX_TAIL_LEN)
    (hj1 : -15 ≤ r.jitter) (hj2 : r.jitter ≤ 15)
    (hh1 : -NUM_ROWS ≤ r.headRand) (hh2 : r.headRand < 0) :
    (updateMatrixRainColumn c now r).state = initColumnState r now ∧
      -NUM_ROWS ≤ (updateMatrixRainColumn c now r).state.headRow ∧
      (updateMatrixRainColumn c now r).state.headRow < 0 ∧
      MIN_TAIL_LEN ≤ (updateMatrixRainColumn c now r).state.tailLength ∧
      (updateMatrixRainColumn c now r).state.tailLength ≤ MAX_TAIL_LEN ∧
      20 ≤ (updateMatrixRainColumn c now r).state.intervalMs := by
  have hd : ¬(sub32 now c.lastUpdateMs < c.intervalMs) := by
    simp only [sub32, UINT32_MOD] at *
    omega
  have hstate : (updateMatrixRainColumn c now r).state = initColumnState r now := by
    rw [updateMatrixRainColumn_state]
    simp only [advanceColumnState, hd, if_false, hresp, if_true, initColumnState]
    rfl
  rw [hstate]
  have hb := intervalOf_bounds r.tailRand r.jitter ht1 ht2 hj1 hj2
  exact ⟨rfl, hh1, hh2, ht1, ht2, hb.1⟩

/-- Witness for C6 at a concrete respawning advance. -/
theorem respawn_reinitializes_witness :
    c6w.lastUpdateMs ≤ 300 ∧ (300 : Nat) < UINT32_MOD ∧
      c6w.intervalMs ≤ 300 - c6w.lastUpdateMs ∧
      NUM_ROWS + (c6w.tailLength : Int) ≤ c6w.headRow + 1 ∧
      ((updateMatrixRainColumn c6w 300 ⟨15, -10, -8⟩).state = initColumnState ⟨15, -10, -8⟩ 300 ∧
        -NUM_ROWS ≤ (updateMatrixRainColumn c6w 300 ⟨15, -10, -8⟩).state.headRow ∧
        (updateMatrixRainColumn c6w 300 ⟨15, -10, -8⟩).state.headRow < 0 ∧
        MIN_TAIL_LEN ≤ (updateMatrixRainColumn c6w 300 ⟨15, -10, -8⟩).state.tailLength ∧
        (updateMatrixRainColumn c6w 300 ⟨15, -10, -8⟩).state.tailLength ≤ MAX_TAIL_LEN ∧
        20 ≤ (updateMatrixRainColumn c6w 300 ⟨15, -10, -8⟩).state.intervalMs) :=
  ⟨by decide, by decide, by decide, by decide,
    respawn_reinitializes c6w 300 ⟨15, -10, -8⟩ (by decide) (by decide) (by decide) (by decide)
      (by decide) (by decide) (by decide) (by decide) (by decide) (by decide)⟩

/-- C7: activating the overlay at `now = 1000` with the 3600 ms duration
sets the deadline to 4600; every tick with current time in `[1000, 4600]`
leaves the overlay active, a tick with current time beyond 4600 deactivates
it and clears `needsDraw`, and in general a tick never deactivates an
active overlay before its deadline has passed. -/
theorem overlay_expiry (ov : TimeOverlay) (now : Nat) :
    (startTimeOverlay ov 1000).endMs = 4600 ∧
      (1000 ≤ now → now ≤ 4600 →
        (updateTimeOverlay (startTimeOverlay ov 1000) now).active = true) ∧
      (4600 < now →
        (updateTimeOverlay (startTimeOverlay ov 1000) now).active = false ∧
          (updateTimeOverlay (startTimeOverlay ov 1000) now).needsDraw = false) ∧
      (∀ ov2 : TimeOverlay, ov2.active = true → now ≤ ov2.endMs →
        (updateTimeOverlay ov2 now).active = true) := by
  have hs : startTimeOverlay ov 1000 =
      { active := true, startMs := 1000, endMs := 4600, needsDraw := true } := by
    simp [startTimeOverlay, TIME_OVERLAY_DURATION_MS, UINT32_MOD]
  refine ⟨by rw [hs], ?_, ?_, ?_⟩
  · intro h1 h2
    rw [hs]
    simp only [updateTimeOverlay]
    split_ifs <;> first | rfl | omega
  · intro h1
    rw [hs]
    simp only [updateTimeOverlay]
    split_ifs <;> first | exact ⟨rfl, rfl⟩ | omega | simp_all
  · intro ov2 ha hle
    simp only [updateTimeOverlay, ha]
    split_ifs <;> first | rfl | exact ha | omega

/-- Witness for C7 at concrete tick times 2000 (still active) and 4601
(expired). -/
theorem overlay_expiry_witness :
    (startTimeOverlay ovW 1000).endMs = 4600 ∧
      (updateTimeOverlay (startTimeOverlay ovW 1000) 2000).active = true ∧
      (updateTimeOverlay (startTimeOverlay ovW 1000) 4601).active = false :=
  ⟨(overlay_expiry ovW 2000).1,
    (overlay_expiry ovW 2000).2.1 (by decide) (by decide),
    ((overlay_expiry ovW 4601).2.2.1 (by decide)).1⟩

/-- C8 counterexample: the router's remap is *not* inversion against the
drawing surface's width/height. In this variant `SCREEN_W = 320` and
`SCREEN_H = 240`, but the remap inverts against 240 on the x axis and 320 on
the y axis: raw `(10, 10)` maps to `(230, 310)`, not
`(SCREEN_W - 10, SCREEN_H - 10) = (310, 230)`, and its y component 310 lies
outside the drawing surface's height 240. -/
theorem touch_remap_counterexample :
    touchRemap 10 10 ≠ (SCREEN_W - 10, SCREEN_H - 10) ∧
      ¬((touchRemap 10 10).2 < SCREEN_H) := by
  decide

/-- C8 as amended: the remap inverts each axis against the touch sensor's
native 240×320 dimensions — `screenX = 240 - rawX`, `screenY = 320 - rawY`
(which are the transpose of this variant's 320×240 drawing surface) — so the
remapped point always lies in the sensor's coordinate space
`[0, 240] × [0, 320]`, not necessarily within the drawing surface. -/
theorem touch_remap_amended (rawX rawY : Int)
    (hx0 : 0 ≤ rawX) (hx1 : rawX ≤ 240) (hy0 : 0 ≤ rawY) (hy1 : rawY ≤ 320) :
    touchRemap rawX rawY = (240 - rawX, 320 - rawY) ∧
      0 ≤ 240 - rawX ∧ 240 - rawX ≤ 240 ∧ 0 ≤ 320 - rawY ∧ 320 - rawY ≤ 320 := by
  refine ⟨?_, by omega, by omega, by omega, by omega⟩
  simp only [touchRemap, arduinoMap, Prod.mk.injEq]
  constructor <;> omega

/-- Witness for the amended C8 at raw touch `(10, 10)`. -/
theorem touch_remap_amended_witness :
    (0 : Int) ≤ 10 ∧ (10 : Int) ≤ 240 ∧ (0 : Int) ≤ 10 ∧ (10 : Int) ≤ 320 ∧
      (touchRemap 10 10 = (240 - 10, 320 - 10) ∧
        (0 : Int) ≤ 240 - 10 ∧ (240 : Int) - 10 ≤ 240 ∧
        (0 : Int) ≤ 320 - 10 ∧ (320 : Int) - 10 ≤ 320) :=
  ⟨by decide, by decide, by decide, by decide,
    touch_remap_amended 10 10 (by decide) (by decide) (by decide) (by decide)⟩

/-- C9: the clock-text formatter maps hour 0 to the displayed hour 12 and
renders the minute zero-padded to two digits; in particular hour 0 and
minute 5 yield `"12:05"`. -/
theorem clock_text_formatting :
    updateTimeTextFromClock 0 5 = "12:05" ∧
      (∀ m : Nat, m < 60 →
        updateTimeTextFromClock 0 (m : Int) = "12:" ++ fmt2 (m : Int) ∧
          (fmt2 (m : Int)).length = 2) := by
  constructor
  · decide
  · decide

/-- Witness for C9 at minute 59. -/
theorem clock_text_formatting_witness :
    updateTimeTextFromClock 0 (59 : Nat) = "12:" ++ fmt2 (59 : Nat) ∧
      (fmt2 ((59 : Nat) : Int)).length = 2 :=
  clock_text_formatting.2 59 (by decide)

/-- C10: `exitSettingsMenu` commits the edited time to the time source with
seconds reset to 0 and hour/minute taken from the settings fields, while the
day, month and year are re-read from the time source and written back
unchanged. -/
theorem exit_settings_commits_time (sh sm : Int) (rtc : RtcState) :
    exitSettingsMenuRtc sh sm rtc =
      { second := 0, minute := sm, hour := sh, day := rtc.day, month := rtc.month,
        year := rtc.year } := by
  simp only [exitSettingsMenuRtc, rtcSetTime, RtcState.getDay, RtcState.getMonth,
    RtcState.getYear, RtcState.mk.injEq]
  refine ⟨trivial, trivial, trivial, trivial, ?_, trivial⟩
  omega
